import Mathlib

set_option maxRecDepth 8192

/-!
Shallow embedding of src/python/page_rank/model/c_models/src/neuron/c_main.c,
the simulation lifecycle controller of the page-rank SpiNNaker core.

The four mutable C globals (uint32_t time, simulation_ticks, infinite_run,
recording_flags) become a state record over Nat with explicit arithmetic
modulo 2 ^ 32.  Calls into the external collaborators (the vertex model, the
recording transport, the profiler, the simulation interface) are observable
events collected in a trace, so that theorems can speak about which calls a
run performs and in which order.
-/

namespace PageRankCMain

/-- Modulus of the 32-bit unsigned arithmetic of the C type uint32_t. -/
def U32 : Nat := 2 ^ 32

/-- The spin1 API macro TRUE, which c_main.c compares against the
uint32_t flag infinite_run. -/
def TRUE : Nat := 1

lemma U32_pos : 0 < U32 := by decide

/-- The mutable globals of c_main.c read or written by the timer callback:
uint32_t time (line 67), simulation_ticks (line 70), infinite_run (line 73)
and recording_flags (line 76). -/
structure SimState where
  time : Nat
  simulation_ticks : Nat
  infinite_run : Nat
  recording_flags : Nat
deriving DecidableEq

/-- Observable calls that timer_callback makes into its collaborators, in
source order: profiler write entries, vertex_store_neuron_parameters,
simulation_handle_pause_resume, recording_finalise, profiler_finalise,
vertex_do_timestep_update and recording_do_timestep_update. -/
inductive Event where
  | profilerEnter
  | profilerExit
  | storeParameters
  | pauseResume
  | recordingFinalise
  | profilerFinalise
  | doTimestepUpdate (t : Nat)
  | recordingTimestepUpdate (t : Nat)
deriving DecidableEq

/-- timer_callback (c_main.c lines 190-238).  It increments time (line 196);
if infinite_run != TRUE and the incremented time has reached
simulation_ticks it stores the vertex parameters, registers the resume
callback (pause), finalises recording when recording_flags > 0, finalises
the profiler and decrements time again (lines 202-226); otherwise it runs
the per-tick vertex update and, when recording_flags > 0, the per-tick
recording hook (lines 230-235).  All uint32_t arithmetic is modulo 2 ^ 32. -/
def timer_callback (s : SimState) : SimState × List Event :=
  let time1 := (s.time + 1) % U32
  if s.infinite_run ≠ TRUE ∧ s.simulation_ticks ≤ time1 then
    ({ s with time := (time1 + (U32 - 1)) % U32 },
      [Event.profilerEnter, Event.storeParameters, Event.pauseResume,
        Event.profilerExit] ++
        (if 0 < s.recording_flags then [Event.recordingFinalise] else []) ++
        [Event.profilerFinalise])
  else
    ({ s with time := time1 },
      [Event.profilerEnter, Event.doTimestepUpdate time1] ++
        (if 0 < s.recording_flags then [Event.recordingTimestepUpdate time1]
          else []) ++
        [Event.profilerExit])

/-- The event trace of one non-boundary tick whose (already incremented)
tick index is t. -/
def tickTrace (flags t : Nat) : List Event :=
  [Event.profilerEnter, Event.doTimestepUpdate t] ++
    (if 0 < flags then [Event.recordingTimestepUpdate t] else []) ++
    [Event.profilerExit]

/-- The event trace of the boundary (pause) branch of timer_callback. -/
def boundaryTrace (flags : Nat) : List Event :=
  [Event.profilerEnter, Event.storeParameters, Event.pauseResume,
    Event.profilerExit] ++
    (if 0 < flags then [Event.recordingFinalise] else []) ++
    [Event.profilerFinalise]

/-- The global state right after c_main sets time = UINT32_MAX (c_main.c
line 252), for the values that initialisation produced for
simulation_ticks, infinite_run and recording_flags. -/
def initState (ticks infr flags : Nat) : SimState :=
  { time := U32 - 1, simulation_ticks := ticks, infinite_run := infr,
    recording_flags := flags }

/-- k successive invocations of timer_callback, returning the final state
and the concatenated event trace. -/
def run_callbacks : Nat → SimState → SimState × List Event
  | 0, s => (s, [])
  | k + 1, s =>
    let r1 := timer_callback s
    let r2 := run_callbacks k r1.1
    (r2.1, r1.2 ++ r2.2)

/-- The arguments of the vertex_do_timestep_update calls in a trace, in
call order. -/
def updateArgs (tr : List Event) : List Nat :=
  tr.filterMap fun e =>
    match e with
    | Event.doTimestepUpdate t => some t
    | _ => none

/-- The concatenated traces of k successive non-boundary ticks starting
from a state whose stored time is t. -/
def ticksTrace (flags : Nat) : Nat → Nat → List Event
  | _, 0 => []
  | t, k + 1 =>
    tickTrace flags ((t + 1) % U32) ++ ticksTrace flags ((t + 1) % U32) k

-- Basic facts about the timer callback and run_callbacks.

lemma run_callbacks_succ (k : Nat) (s : SimState) :
    run_callbacks (k + 1) s =
      ((run_callbacks k (timer_callback s).1).1,
        (timer_callback s).2 ++ (run_callbacks k (timer_callback s).1).2) :=
  rfl

lemma run_callbacks_one (s : SimState) :
    run_callbacks 1 s = timer_callback s := by
  simp [run_callbacks]

lemma run_callbacks_add (a b : Nat) (s : SimState) :
    run_callbacks (a + b) s =
      ((run_callbacks b (run_callbacks a s).1).1,
        (run_callbacks a s).2 ++ (run_callbacks b (run_callbacks a s).1).2) := by
  induction a generalizing s with
  | zero => simp [run_callbacks]
  | succ a ih =>
    have h : a + 1 + b = (a + b) + 1 := by omega
    rw [h, run_callbacks_succ, run_callbacks_succ, ih]
    simp [List.append_assoc]

lemma timer_callback_of_run (s : SimState)
    (h : s.infinite_run = TRUE ∨ (s.time + 1) % U32 < s.simulation_ticks) :
    timer_callback s =
      ({ s with time := (s.time + 1) % U32 },
        tickTrace s.recording_flags ((s.time + 1) % U32)) := by
  have hc : ¬(s.infinite_run ≠ TRUE ∧ s.simulation_ticks ≤ (s.time + 1) % U32) := by
    rcases h with h | h
    · exact fun hx => hx.1 h
    · exact fun hx => absurd hx.2 (by omega)
  simp [timer_callback, tickTrace, hc]

lemma timer_callback_of_boundary (s : SimState)
    (hinf : s.infinite_run ≠ TRUE)
    (hb : s.simulation_ticks ≤ (s.time + 1) % U32) :
    timer_callback s =
      ({ s with time := ((s.time + 1) % U32 + (U32 - 1)) % U32 },
        boundaryTrace s.recording_flags) := by
  simp [timer_callback, boundaryTrace, hinf, hb]

lemma dec_after_inc {t : Nat} (h : t < U32) :
    ((t + 1) % U32 + (U32 - 1)) % U32 = t := by
  have hU := U32_pos
  rcases Nat.lt_or_ge (t + 1) U32 with h1 | h1
  · rw [Nat.mod_eq_of_lt h1]
    have h2 : t + 1 + (U32 - 1) = t + U32 := by omega
    rw [h2, Nat.add_mod_right, Nat.mod_eq_of_lt h]
  · have h2 : t + 1 = U32 := by omega
    rw [h2, Nat.mod_self, Nat.zero_add, Nat.mod_eq_of_lt (by omega)]
    omega

lemma timer_callback_fixed (s : SimState) (ht : s.time < U32)
    (hinf : s.infinite_run ≠ TRUE)
    (hb : s.simulation_ticks ≤ (s.time + 1) % U32) :
    timer_callback s = (s, boundaryTrace s.recording_flags) := by
  rw [timer_callback_of_boundary s hinf hb, dec_after_inc ht]

lemma updateArgs_append (l1 l2 : List Event) :
    updateArgs (l1 ++ l2) = updateArgs l1 ++ updateArgs l2 :=
  List.filterMap_append l1 l2 _

lemma updateArgs_tickTrace (flags t : Nat) :
    updateArgs (tickTrace flags t) = [t] := by
  by_cases h : 0 < flags <;> simp [tickTrace, updateArgs, h]

lemma updateArgs_boundaryTrace (flags : Nat) :
    updateArgs (boundaryTrace flags) = [] := by
  by_cases h : 0 < flags <;> simp [boundaryTrace, updateArgs, h]

lemma updateArgs_ticksTrace (flags : Nat) :
    ∀ k t, t + k < U32 →
      updateArgs (ticksTrace flags t k) = List.range' (t + 1) k := by
  intro k
  induction k with
  | zero => intro t _; simp [ticksTrace, updateArgs]
  | succ k ih =>
    intro t h
    have h1 : t + 1 < U32 := by omega
    have hm : (t + 1) % U32 = t + 1 := Nat.mod_eq_of_lt h1
    show updateArgs (tickTrace flags ((t + 1) % U32) ++
      ticksTrace flags ((t + 1) % U32) k) = _
    rw [hm, updateArgs_append, updateArgs_tickTrace, ih (t + 1) (by omega)]
    simp [List.range'_succ]

lemma updateArgs_ticksTrace_length (flags : Nat) :
    ∀ k t, (updateArgs (ticksTrace flags t k)).length = k := by
  intro k
  induction k with
  | zero => intro t; simp [ticksTrace, updateArgs]
  | succ k ih =>
    intro t
    show (updateArgs (tickTrace flags ((t + 1) % U32) ++
      ticksTrace flags ((t + 1) % U32) k)).length = _
    rw [updateArgs_append, updateArgs_tickTrace]
    simp [ih]

lemma not_mem_tickTrace (flags t : Nat) :
    Event.storeParameters ∉ tickTrace flags t ∧
    Event.pauseResume ∉ tickTrace flags t ∧
    Event.recordingFinalise ∉ tickTrace flags t ∧
    Event.profilerFinalise ∉ tickTrace flags t := by
  by_cases h : 0 < flags <;> simp [tickTrace, h]

lemma not_mem_ticksTrace (flags : Nat) :
    ∀ k t, Event.storeParameters ∉ ticksTrace flags t k ∧
      Event.pauseResume ∉ ticksTrace flags t k ∧
      Event.recordingFinalise ∉ ticksTrace flags t k ∧
      Event.profilerFinalise ∉ ticksTrace flags t k := by
  intro k
  induction k with
  | zero => intro t; simp [ticksTrace]
  | succ k ih =>
    intro t
    have h1 := not_mem_tickTrace flags ((t + 1) % U32)
    have h2 := ih ((t + 1) % U32)
    have h3 : ticksTrace flags t (k + 1) =
        tickTrace flags ((t + 1) % U32) ++ ticksTrace flags ((t + 1) % U32) k :=
      rfl
    rw [h3]
    simp only [List.mem_append]
    tauto

lemma run_callbacks_fixed (s : SimState) (ht : s.time < U32)
    (hinf : s.infinite_run ≠ TRUE)
    (hb : s.simulation_ticks ≤ (s.time + 1) % U32) (k : Nat) :
    (run_callbacks k s).1 = s ∧ updateArgs (run_callbacks k s).2 = [] := by
  induction k with
  | zero => exact ⟨rfl, rfl⟩
  | succ k ih =>
    rw [run_callbacks_succ, timer_callback_fixed s ht hinf hb]
    simpa [updateArgs_append, updateArgs_boundaryTrace] using ih

lemma run_callbacks_steady (flags infr N : Nat) (hNU : N ≤ U32) :
    ∀ k t, t + k < N →
      run_callbacks k ⟨t, N, infr, flags⟩ =
        (⟨t + k, N, infr, flags⟩, ticksTrace flags t k) := by
  intro k
  induction k with
  | zero => intro t _; simp [run_callbacks, ticksTrace]
  | succ k ih =>
    intro t ht
    have h1 : t + 1 < U32 := by omega
    have hm : (t + 1) % U32 = t + 1 := Nat.mod_eq_of_lt h1
    have hcb : timer_callback ⟨t, N, infr, flags⟩ =
        ((⟨t + 1, N, infr, flags⟩ : SimState), tickTrace flags (t + 1)) := by
      have h2 := timer_callback_of_run ⟨t, N, infr, flags⟩
        (Or.inr (by show (t + 1) % U32 < N; omega))
      rw [hm] at h2
      exact h2
    have h3 := ih (t + 1) (by omega)
    have h5 : ticksTrace flags t (k + 1) =
        tickTrace flags (t + 1) ++ ticksTrace flags (t + 1) k := by
      show tickTrace flags ((t + 1) % U32) ++
        ticksTrace flags ((t + 1) % U32) k = _
      rw [hm]
    rw [run_callbacks_succ, hcb]
    show ((run_callbacks k (⟨t + 1, N, infr, flags⟩ : SimState)).1,
      tickTrace flags (t + 1) ++
        (run_callbacks k (⟨t + 1, N, infr, flags⟩ : SimState)).2) = _
    rw [h3, h5]
    show ((⟨t + 1 + k, N, infr, flags⟩ : SimState),
      tickTrace flags (t + 1) ++ ticksTrace flags (t + 1) k) = _
    have h4 : t + 1 + k = t + (k + 1) := by omega
    rw [h4]

lemma run_callbacks_infinite (s : SimState) (hinf : s.infinite_run = TRUE)
    (ht : s.time < U32) (k : Nat) :
    run_callbacks k s =
      ({ s with time := (s.time + k) % U32 },
        ticksTrace s.recording_flags s.time k) := by
  induction k generalizing s with
  | zero =>
    simp [run_callbacks, ticksTrace, Nat.mod_eq_of_lt ht]
  | succ k ih =>
    have h1 : (s.time + 1) % U32 < U32 := Nat.mod_lt _ U32_pos
    have hcb := timer_callback_of_run s (Or.inl hinf)
    have ih2 := ih { s with time := (s.time + 1) % U32 } hinf h1
    have h2 : ((s.time + 1) % U32 + k) % U32 = (s.time + (k + 1)) % U32 := by
      rw [Nat.mod_add_mod]
      congr 1
      omega
    have h3 : ticksTrace s.recording_flags s.time (k + 1) =
        tickTrace s.recording_flags ((s.time + 1) % U32) ++
          ticksTrace s.recording_flags ((s.time + 1) % U32) k := rfl
    rw [run_callbacks_succ, hcb]
    show ((run_callbacks k { s with time := (s.time + 1) % U32 }).1,
      tickTrace s.recording_flags ((s.time + 1) % U32) ++
        (run_callbacks k { s with time := (s.time + 1) % U32 }).2) = _
    rw [ih2]
    show ({ s with time := ((s.time + 1) % U32 + k) % U32 },
      tickTrace s.recording_flags ((s.time + 1) % U32) ++
        ticksTrace s.recording_flags ((s.time + 1) % U32) k) = _
    rw [h2, h3]

lemma timer_callback_first (N infr flags : Nat) (h : 0 < N ∨ infr = TRUE) :
    timer_callback (initState N infr flags) =
      ((⟨0, N, infr, flags⟩ : SimState), tickTrace flags 0) := by
  have hU := U32_pos
  have hm : ((initState N infr flags).time + 1) % U32 = 0 := by
    show (U32 - 1 + 1) % U32 = 0
    have h1 : U32 - 1 + 1 = U32 := by omega
    rw [h1, Nat.mod_self]
  rcases h with h | h
  · have h2 := timer_callback_of_run (initState N infr flags)
      (Or.inr (by rw [hm]; exact h))
    rw [hm] at h2
    exact h2
  · have h2 := timer_callback_of_run (initState N infr flags) (Or.inl h)
    rw [hm] at h2
    exact h2

lemma run_to_boundary (N flags : Nat) (hN : 0 < N) (hNU : N < U32) :
    run_callbacks N (initState N 0 flags) =
      ((⟨N - 1, N, 0, flags⟩ : SimState),
        tickTrace flags 0 ++ ticksTrace flags 0 (N - 1)) := by
  have hsplit : 1 + (N - 1) = N := by omega
  have hadd := run_callbacks_add 1 (N - 1) (initState N 0 flags)
  rw [hsplit] at hadd
  rw [hadd, run_callbacks_one,
    timer_callback_first N 0 flags (Or.inl hN)]
  show ((run_callbacks (N - 1) (⟨0, N, 0, flags⟩ : SimState)).1,
    tickTrace flags 0 ++ (run_callbacks (N - 1) (⟨0, N, 0, flags⟩ : SimState)).2) = _
  rw [run_callbacks_steady flags 0 N (Nat.le_of_lt hNU) (N - 1) 0 (by omega)]
  simp

lemma boundary_state_fixed (N flags : Nat) (hN : 0 < N) (hNU : N < U32) (k : Nat) :
    (run_callbacks k (⟨N - 1, N, 0, flags⟩ : SimState)).1 =
        (⟨N - 1, N, 0, flags⟩ : SimState) ∧
      updateArgs (run_callbacks k (⟨N - 1, N, 0, flags⟩ : SimState)).2 = [] := by
  apply run_callbacks_fixed
  · show N - 1 < U32
    omega
  · show (0 : Nat) ≠ TRUE
    decide
  · show N ≤ (N - 1 + 1) % U32
    have h1 : N - 1 + 1 = N := by omega
    rw [h1, Nat.mod_eq_of_lt hNU]

lemma run_to_pause (N flags : Nat) (hN : 0 < N) (hNU : N < U32) :
    run_callbacks (N + 1) (initState N 0 flags) =
      ((⟨N - 1, N, 0, flags⟩ : SimState),
        (tickTrace flags 0 ++ ticksTrace flags 0 (N - 1)) ++ boundaryTrace flags) := by
  have hadd := run_callbacks_add N 1 (initState N 0 flags)
  rw [hadd, run_to_boundary N flags hN hNU]
  show ((run_callbacks 1 (⟨N - 1, N, 0, flags⟩ : SimState)).1,
    (tickTrace flags 0 ++ ticksTrace flags 0 (N - 1)) ++
      (run_callbacks 1 (⟨N - 1, N, 0, flags⟩ : SimState)).2) = _
  rw [run_callbacks_one, timer_callback_fixed (⟨N - 1, N, 0, flags⟩ : SimState)
    (by show N - 1 < U32; omega)
    (by show (0 : Nat) ≠ TRUE; decide)
    (by
      show N ≤ (N - 1 + 1) % U32
      have h1 : N - 1 + 1 = N := by omega
      rw [h1, Nat.mod_eq_of_lt hNU])]

-- Initialisation (c_main.c lines 106-169) and the remaining operations.

/-- Outcomes of the external calls that initialise performs, in source
order.  header_ok models data_specification_read_header; tag_ok models
the application-tag comparison against APPLICATION_NAME_HASH that
simulation_initialise performs on the system region (modelled from the
spec, since simulation_initialise is an external library routine: the
application identity tag must equal a compile-time constant or
initialisation fails); sim_ok models the rest of simulation_initialise;
the remaining fields model recording_initialize, vertex_initialise,
message_dispatching_initialise, population_table_initialise and
message_processing_initialise. -/
structure InitEnv where
  header_ok : Bool
  tag_ok : Bool
  sim_ok : Bool
  recording_ok : Bool
  vertex_ok : Bool
  dispatch_ok : Bool
  pop_table_ok : Bool
  msg_proc_ok : Bool
deriving DecidableEq

/-- The calls initialise makes, in source order: simulation_initialise
(line 118), simulation_set_provenance_function (line 124),
recording_initialize via initialise_recording (line 129),
vertex_initialise (line 136), message_dispatching_initialise (line 144),
population_table_initialise (line 152), message_processing_initialise
(line 159), profiler_init (line 165). -/
inductive InitCall where
  | simulationInit
  | setProvenanceFn
  | recordingInit
  | vertexInit
  | dispatchInit
  | popTableInit
  | msgProcInit
  | profilerInit
deriving DecidableEq

/-- The full call sequence of a successful initialise, in source order. -/
def initOrder : List InitCall :=
  [InitCall.simulationInit, InitCall.setProvenanceFn, InitCall.recordingInit,
    InitCall.vertexInit, InitCall.dispatchInit, InitCall.popTableInit,
    InitCall.msgProcInit, InitCall.profilerInit]

/-- initialise (c_main.c lines 106-169): reads the data-specification
header, then calls each collaborator in turn, returning false at the
first failure (each failing call makes initialise return immediately).
The application tag is checked inside simulation_initialise, to which
c_main.c passes APPLICATION_NAME_HASH.  Returns the success flag and the
list of collaborator calls that were made. -/
def initialise (env : InitEnv) : Bool × List InitCall :=
  if env.header_ok = false then (false, [])
  else if (env.tag_ok && env.sim_ok) = false then
    (false, [InitCall.simulationInit])
  else if env.recording_ok = false then
    (false, [InitCall.simulationInit, InitCall.setProvenanceFn,
      InitCall.recordingInit])
  else if env.vertex_ok = false then
    (false, [InitCall.simulationInit, InitCall.setProvenanceFn,
      InitCall.recordingInit, InitCall.vertexInit])
  else if env.dispatch_ok = false then
    (false, [InitCall.simulationInit, InitCall.setProvenanceFn,
      InitCall.recordingInit, InitCall.vertexInit, InitCall.dispatchInit])
  else if env.pop_table_ok = false then
    (false, [InitCall.simulationInit, InitCall.setProvenanceFn,
      InitCall.recordingInit, InitCall.vertexInit, InitCall.dispatchInit,
      InitCall.popTableInit])
  else if env.msg_proc_ok = false then
    (false, [InitCall.simulationInit, InitCall.setProvenanceFn,
      InitCall.recordingInit, InitCall.vertexInit, InitCall.dispatchInit,
      InitCall.popTableInit, InitCall.msgProcInit])
  else (true, initOrder)

/-- The error codes c_main.c raises through rt_error: RTE_API on
initialisation failure (line 248), RTE_SWERR on a failed parameter
reload during resume (line 181). -/
inductive RtError where
  | RTE_API
  | RTE_SWERR
deriving DecidableEq

/-- The calls resume_callback makes, in source order: recording_reset
(line 174) and the vertex_reload_neuron_parameters attempt (line 178). -/
inductive ResumeEvent where
  | recordingReset
  | reloadParams
deriving DecidableEq

/-- resume_callback (c_main.c lines 173-183): resets recording, then
attempts to reload the vertex parameters from their region; when the
reload fails it raises the fatal error RTE_SWERR (the core halts), and
otherwise it returns normally (no error). -/
def resume_callback (reload_ok : Bool) : List ResumeEvent × Option RtError :=
  ([ResumeEvent.recordingReset, ResumeEvent.reloadParams],
    if reload_ok then none else some RtError.RTE_SWERR)

/-- c_main (c_main.c lines 241-262): on initialisation failure it raises
the fatal error RTE_API; on success it sets time = UINT32_MAX (line 252)
and enters the simulation with the values initialisation produced for
simulation_ticks, infinite_run and recording_flags. -/
def c_main (env : InitEnv) (ticks infr flags : Nat) : Except RtError SimState :=
  if (initialise env).1 = true then Except.ok (initState ticks infr flags)
  else Except.error RtError.RTE_API

-- Provenance (c_main.c lines 48-53 and 88-99).

/-- Index NUMBER_OF_PRE_SYNAPTIC_EVENT_COUNT = 0 (c_main.c line 49). -/
def NUMBER_OF_PRE_SYNAPTIC_EVENT_COUNT : Nat := 0

/-- Index SYNAPTIC_WEIGHT_SATURATION_COUNT = 1 (c_main.c line 50). -/
def SYNAPTIC_WEIGHT_SATURATION_COUNT : Nat := 1

/-- Index INPUT_BUFFER_OVERFLOW_COUNT = 2 (c_main.c line 51). -/
def INPUT_BUFFER_OVERFLOW_COUNT : Nat := 2

/-- Index CURRENT_TIMER_TICK = 3 (c_main.c line 52). -/
def CURRENT_TIMER_TICK : Nat := 3

/-- The diagnostic counters the collaborators report when queried:
message_dispatching_get_pre_synaptic_events,
message_dispatching_get_saturation_count and
message_processing_get_buffer_overflows. -/
structure ProvCounters where
  pre_synaptic_events : Nat
  saturation_count : Nat
  buffer_overflows : Nat
deriving DecidableEq

/-- c_main_store_provenance_data (c_main.c lines 88-99): writes the four
diagnostic words into the provenance region, in source order, at the
fixed enum indices; the region is a word-addressed memory modelled as a
function from word index to value. -/
def c_main_store_provenance_data (c : ProvCounters) (time : Nat)
    (region : Nat → Nat) : Nat → Nat :=
  Function.update
    (Function.update
      (Function.update
        (Function.update region
          NUMBER_OF_PRE_SYNAPTIC_EVENT_COUNT c.pre_synaptic_events)
        SYNAPTIC_WEIGHT_SATURATION_COUNT c.saturation_count)
      INPUT_BUFFER_OVERFLOW_COUNT c.buffer_overflows)
    CURRENT_TIMER_TICK time

-- Claim theorems.

/-- C1 (amended): for a run with ticks_requested = N (0 < N < 2 ^ 32),
infinite_run = false and recording enabled, the N + 1 timer-callback
invocations call vertex_do_timestep_update exactly N times, with
arguments 0..N-1 exactly once each in increasing order; the (N+1)-th
invocation performs store_parameters, the pause transition,
recording_finalise and profiler_finalise and no model update; and the
tick counter time is left at N - 1, not N: the boundary tick increments
time to N and then decrements it again so that tick N re-executes after
resume. -/
theorem C1_tick_trace (N flags : Nat) (hN : 0 < N) (hNU : N < U32)
    (hf : 0 < flags) :
    updateArgs (run_callbacks (N + 1) (initState N 0 flags)).2 =
      List.range N ∧
    (timer_callback (run_callbacks N (initState N 0 flags)).1).2 =
      [Event.profilerEnter, Event.storeParameters, Event.pauseResume,
        Event.profilerExit, Event.recordingFinalise, Event.profilerFinalise] ∧
    updateArgs (timer_callback (run_callbacks N (initState N 0 flags)).1).2 =
      [] ∧
    (run_callbacks (N + 1) (initState N 0 flags)).1.time = N - 1 := by
  have hrb := run_to_boundary N flags hN hNU
  have hrp := run_to_pause N flags hN hNU
  have hfix := timer_callback_fixed (⟨N - 1, N, 0, flags⟩ : SimState)
    (by show N - 1 < U32; omega)
    (by show (0 : Nat) ≠ TRUE; decide)
    (by
      show N ≤ (N - 1 + 1) % U32
      have h1 : N - 1 + 1 = N := by omega
      rw [h1, Nat.mod_eq_of_lt hNU])
  refine ⟨?_, ?_, ?_, ?_⟩
  · rw [hrp]
    show updateArgs ((tickTrace flags 0 ++ ticksTrace flags 0 (N - 1)) ++
      boundaryTrace flags) = _
    rw [updateArgs_append, updateArgs_append, updateArgs_tickTrace,
      updateArgs_boundaryTrace, updateArgs_ticksTrace flags (N - 1) 0 (by omega)]
    obtain ⟨m, rfl⟩ : ∃ m, N = m + 1 := ⟨N - 1, by omega⟩
    rw [List.range_eq_range', List.range'_succ]
    simp
  · rw [hrb]
    show (timer_callback (⟨N - 1, N, 0, flags⟩ : SimState)).2 = _
    rw [hfix]
    show boundaryTrace flags = _
    simp [boundaryTrace, hf]
  · rw [hrb]
    show updateArgs (timer_callback (⟨N - 1, N, 0, flags⟩ : SimState)).2 = _
    rw [hfix]
    exact updateArgs_boundaryTrace flags
  · rw [hrp]

/-- C1 counterexample: at ticks_requested = 3, infinite_run = false,
recording enabled, the claim says the tick counter time is left at 3
after the fourth callback invocation, but the code leaves it at 2 (the
boundary tick increments time to 3 and then decrements it again). -/
theorem C1_counterexample :
    (run_callbacks 4 (initState 3 0 1)).1.time = 2 ∧
    ¬(run_callbacks 4 (initState 3 0 1)).1.time = 3 := by
  decide

/-- C1 witness: the amended claim instantiated at N = 3, flags = 1. -/
theorem C1_witness :
    updateArgs (run_callbacks (3 + 1) (initState 3 0 1)).2 =
      List.range 3 ∧
    (timer_callback (run_callbacks 3 (initState 3 0 1)).1).2 =
      [Event.profilerEnter, Event.storeParameters, Event.pauseResume,
        Event.profilerExit, Event.recordingFinalise, Event.profilerFinalise] ∧
    updateArgs (timer_callback (run_callbacks 3 (initState 3 0 1)).1).2 =
      [] ∧
    (run_callbacks (3 + 1) (initState 3 0 1)).1.time = 3 - 1 :=
  C1_tick_trace 3 1 (by decide) (by decide) (by decide)

/-- C2: when infinite_run is not TRUE and the incremented time has
reached simulation_ticks, the timer callback produces the boundary
trace (store parameters, pause transition, recording_finalise only when
the recording flags are non-zero, profiler_finalise), decrements the
incremented time by one and makes no vertex_do_timestep_update call;
otherwise it performs the per-tick model update followed by the
per-tick recording hook only when the recording flags are non-zero. -/
theorem C2_branches (s : SimState) (ht : s.time < U32) :
    (s.infinite_run ≠ TRUE → s.simulation_ticks ≤ (s.time + 1) % U32 →
      timer_callback s = (s, boundaryTrace s.recording_flags) ∧
      (timer_callback s).1.time = ((s.time + 1) % U32 + (U32 - 1)) % U32 ∧
      updateArgs (timer_callback s).2 = []) ∧
    (s.infinite_run = TRUE ∨ (s.time + 1) % U32 < s.simulation_ticks →
      timer_callback s =
        ({ s with time := (s.time + 1) % U32 },
          tickTrace s.recording_flags ((s.time + 1) % U32))) := by
  constructor
  · intro hinf hb
    have hfix := timer_callback_fixed s ht hinf hb
    refine ⟨hfix, ?_, ?_⟩
    · rw [hfix]
      show s.time = _
      rw [dec_after_inc ht]
    · rw [hfix]
      exact updateArgs_boundaryTrace _
  · exact timer_callback_of_run s

/-- C2 witness: the boundary branch at time = 4, simulation_ticks = 3,
infinite_run = 0, recording_flags = 1. -/
theorem C2_witness :
    timer_callback ⟨4, 3, 0, 1⟩ = ((⟨4, 3, 0, 1⟩ : SimState), boundaryTrace 1) :=
  ((C2_branches ⟨4, 3, 0, 1⟩ (by decide)).1 (by decide) (by decide)).1

/-- C3: after a run with ticks_requested = N (0 < N < 2 ^ 32) and
infinite_run = false has reached its paused boundary tick, any number k
of further timer-callback invocations without an intervening resume
leaves the state unchanged, performs no vertex_do_timestep_update call,
and leaves time at N - 1 < N, never past N. -/
theorem C3_boundary_idempotent (N flags k : Nat) (hN : 0 < N)
    (hNU : N < U32) :
    (run_callbacks k (run_callbacks (N + 1) (initState N 0 flags)).1).1 =
      (run_callbacks (N + 1) (initState N 0 flags)).1 ∧
    updateArgs
      (run_callbacks k (run_callbacks (N + 1) (initState N 0 flags)).1).2 =
      [] ∧
    (run_callbacks k (run_callbacks (N + 1) (initState N 0 flags)).1).1.time =
      N - 1 ∧
    N - 1 < N := by
  have hrp := run_to_pause N flags hN hNU
  have hfix := boundary_state_fixed N flags hN hNU k
  rw [hrp]
  refine ⟨?_, ?_, ?_, by omega⟩
  · show (run_callbacks k (⟨N - 1, N, 0, flags⟩ : SimState)).1 =
      (⟨N - 1, N, 0, flags⟩ : SimState)
    exact hfix.1
  · show updateArgs (run_callbacks k (⟨N - 1, N, 0, flags⟩ : SimState)).2 = []
    exact hfix.2
  · show (run_callbacks k (⟨N - 1, N, 0, flags⟩ : SimState)).1.time = N - 1
    rw [hfix.1]

/-- C3 witness: the idempotent boundary at N = 2, flags = 1, with 3
further callback invocations. -/
theorem C3_witness :
    (run_callbacks 3 (run_callbacks (2 + 1) (initState 2 0 1)).1).1 =
      (run_callbacks (2 + 1) (initState 2 0 1)).1 ∧
    updateArgs
      (run_callbacks 3 (run_callbacks (2 + 1) (initState 2 0 1)).1).2 =
      [] ∧
    (run_callbacks 3 (run_callbacks (2 + 1) (initState 2 0 1)).1).1.time =
      2 - 1 ∧
    2 - 1 < 2 :=
  C3_boundary_idempotent 2 1 3 (by decide) (by decide)

/-- C4 (amended): initialise succeeds iff the header validates, the
application tag matches and every sub-collaborator initialisation
succeeds; when a step fails, initialise returns false immediately and
no subsequent collaborator initialisation is invoked: the calls made
are an initial segment of the full call order, a failed header check
makes no call at all, and for each later failing step (simulation
interface, recording, vertex, message dispatching, population table,
message processing) none of the calls that follow that step in the
source appears in the call list.  A wrong application tag makes
initialise fail during the simulation-interface initialisation (which
is the call that checks the tag), so that call list is exactly
[simulationInit]: no later collaborator is initialised, but the
simulation collaborator itself has been invoked. -/
theorem C4_initialise_order (env : InitEnv) :
    ((initialise env).1 = true ↔
      env.header_ok = true ∧ env.tag_ok = true ∧ env.sim_ok = true ∧
      env.recording_ok = true ∧ env.vertex_ok = true ∧
      env.dispatch_ok = true ∧ env.pop_table_ok = true ∧
      env.msg_proc_ok = true) ∧
    (initialise env).2 = initOrder.take (initialise env).2.length ∧
    (env.header_ok = false → initialise env = (false, [])) ∧
    ((env.tag_ok && env.sim_ok) = false →
      InitCall.setProvenanceFn ∉ (initialise env).2 ∧
      InitCall.recordingInit ∉ (initialise env).2 ∧
      InitCall.vertexInit ∉ (initialise env).2 ∧
      InitCall.dispatchInit ∉ (initialise env).2 ∧
      InitCall.popTableInit ∉ (initialise env).2 ∧
      InitCall.msgProcInit ∉ (initialise env).2 ∧
      InitCall.profilerInit ∉ (initialise env).2) ∧
    (env.recording_ok = false →
      InitCall.vertexInit ∉ (initialise env).2 ∧
      InitCall.dispatchInit ∉ (initialise env).2 ∧
      InitCall.popTableInit ∉ (initialise env).2 ∧
      InitCall.msgProcInit ∉ (initialise env).2 ∧
      InitCall.profilerInit ∉ (initialise env).2) ∧
    (env.vertex_ok = false →
      InitCall.dispatchInit ∉ (initialise env).2 ∧
      InitCall.popTableInit ∉ (initialise env).2 ∧
      InitCall.msgProcInit ∉ (initialise env).2 ∧
      InitCall.profilerInit ∉ (initialise env).2) ∧
    (env.dispatch_ok = false →
      InitCall.popTableInit ∉ (initialise env).2 ∧
      InitCall.msgProcInit ∉ (initialise env).2 ∧
      InitCall.profilerInit ∉ (initialise env).2) ∧
    (env.pop_table_ok = false →
      InitCall.msgProcInit ∉ (initialise env).2 ∧
      InitCall.profilerInit ∉ (initialise env).2) ∧
    (env.msg_proc_ok = false →
      InitCall.profilerInit ∉ (initialise env).2) ∧
    (env.header_ok = true → env.tag_ok = false →
      initialise env = (false, [InitCall.simulationInit])) := by
  obtain ⟨h, t, s, r, v, d, p, m⟩ := env
  cases h <;> cases t <;> cases s <;> cases r <;> cases v <;> cases d <;>
    cases p <;> cases m <;>
    exact ⟨by decide, by decide, by decide, by decide, by decide, by decide,
      by decide, by decide, by decide, by decide⟩

/-- C4 counterexample: with a valid header, a wrong application tag and
every other step succeeding, initialise fails but its call list is
[simulationInit], not empty: the simulation collaborator's
initialisation has been invoked (it is the call that performs the tag
check), contradicting that a wrong tag fails before any collaborator's
initialisation is invoked. -/
theorem C4_counterexample :
    initialise ⟨true, false, true, true, true, true, true, true⟩ =
      (false, [InitCall.simulationInit]) ∧
    ¬(initialise ⟨true, false, true, true, true, true, true, true⟩).2 = [] := by
  decide

/-- C4 witness: the amended claim instantiated at the wrong-tag
environment, and the no-subsequent-call guarantee instantiated at an
environment whose recording initialisation fails. -/
theorem C4_witness :
    initialise ⟨true, false, true, true, true, true, true, true⟩ =
      (false, [InitCall.simulationInit]) ∧
    InitCall.vertexInit ∉
      (initialise ⟨true, true, true, false, true, true, true, true⟩).2 :=
  ⟨(C4_initialise_order
      ⟨true, false, true, true, true, true, true, true⟩).2.2.2.2.2.2.2.2.2
      rfl rfl,
    ((C4_initialise_order
      ⟨true, true, true, false, true, true, true, true⟩).2.2.2.2.1 rfl).1⟩

/-- C5: with infinite_run = TRUE the boundary branch of the timer
callback is never taken, no matter how large time grows: each of k
callback invocations performs the model per-tick update (k update calls
in total) and no store-parameters, pause, recording-finalise or
profiler-finalise event ever occurs; time just keeps increasing modulo
2 ^ 32. -/
theorem C5_infinite_no_boundary (s : SimState) (k : Nat)
    (hinf : s.infinite_run = TRUE) (ht : s.time < U32) :
    (updateArgs (run_callbacks k s).2).length = k ∧
    Event.storeParameters ∉ (run_callbacks k s).2 ∧
    Event.pauseResume ∉ (run_callbacks k s).2 ∧
    Event.recordingFinalise ∉ (run_callbacks k s).2 ∧
    Event.profilerFinalise ∉ (run_callbacks k s).2 ∧
    (run_callbacks k s).1.time = (s.time + k) % U32 := by
  have hrun := run_callbacks_infinite s hinf ht k
  have hmem := not_mem_ticksTrace s.recording_flags k s.time
  rw [hrun]
  refine ⟨?_, ?_, ?_, ?_, ?_, ?_⟩
  · show (updateArgs (ticksTrace s.recording_flags s.time k)).length = k
    exact updateArgs_ticksTrace_length s.recording_flags k s.time
  · show Event.storeParameters ∉ ticksTrace s.recording_flags s.time k
    exact hmem.1
  · show Event.pauseResume ∉ ticksTrace s.recording_flags s.time k
    exact hmem.2.1
  · show Event.recordingFinalise ∉ ticksTrace s.recording_flags s.time k
    exact hmem.2.2.1
  · show Event.profilerFinalise ∉ ticksTrace s.recording_flags s.time k
    exact hmem.2.2.2
  · rfl

/-- C5 witness: five infinite-run callbacks starting with time = 7
already past simulation_ticks = 3. -/
theorem C5_witness :
    (updateArgs (run_callbacks 5 ⟨7, 3, 1, 1⟩).2).length = 5 ∧
    Event.storeParameters ∉ (run_callbacks 5 ⟨7, 3, 1, 1⟩).2 ∧
    Event.pauseResume ∉ (run_callbacks 5 ⟨7, 3, 1, 1⟩).2 ∧
    Event.recordingFinalise ∉ (run_callbacks 5 ⟨7, 3, 1, 1⟩).2 ∧
    Event.profilerFinalise ∉ (run_callbacks 5 ⟨7, 3, 1, 1⟩).2 ∧
    (run_callbacks 5 ⟨7, 3, 1, 1⟩).1.time = (7 + 5) % U32 :=
  C5_infinite_no_boundary ⟨7, 3, 1, 1⟩ 5 (by decide) (by decide)

/-- C6: after successful initialisation c_main sets the tick counter to
UINT32_MAX = 2 ^ 32 - 1, the first increment in the timer callback
wraps modulo 2 ^ 32 to 0, and the first executed tick passes 0 to
vertex_do_timestep_update, leaving time = 0. -/
theorem C6_first_tick (env : InitEnv) (N flags : Nat)
    (hinit : (initialise env).1 = true) (hN : 0 < N) :
    c_main env N 0 flags = Except.ok (initState N 0 flags) ∧
    (initState N 0 flags).time = U32 - 1 ∧
    ((initState N 0 flags).time + 1) % U32 = 0 ∧
    updateArgs (timer_callback (initState N 0 flags)).2 = [0] ∧
    (timer_callback (initState N 0 flags)).1.time = 0 := by
  have hcb := timer_callback_first N 0 flags (Or.inl hN)
  refine ⟨?_, rfl, ?_, ?_, ?_⟩
  · simp [c_main, hinit]
  · show (U32 - 1 + 1) % U32 = 0
    have hU := U32_pos
    have h1 : U32 - 1 + 1 = U32 := by omega
    rw [h1, Nat.mod_self]
  · rw [hcb]
    show updateArgs (tickTrace flags 0) = _
    exact updateArgs_tickTrace flags 0
  · rw [hcb]

/-- C6 witness: the all-successful environment with 3 requested ticks. -/
theorem C6_witness :
    c_main ⟨true, true, true, true, true, true, true, true⟩ 3 0 0 =
      Except.ok (initState 3 0 0) ∧
    (initState 3 0 0).time = U32 - 1 ∧
    ((initState 3 0 0).time + 1) % U32 = 0 ∧
    updateArgs (timer_callback (initState 3 0 0)).2 = [0] ∧
    (timer_callback (initState 3 0 0)).1.time = 0 :=
  C6_first_tick ⟨true, true, true, true, true, true, true, true⟩ 3 0
    (by decide) (by decide)

/-- C7: the provenance-store operation writes the pre-synaptic event
count at word 0, the saturation count at word 1, the buffer-overflow
count at word 2 and the current tick counter at word 3, each value
taken from the corresponding collaborator counter (or the clock), and
leaves every other word of the region untouched (in particular it never
reads the region: the four written words do not depend on the previous
region contents). -/
theorem C7_provenance (c : ProvCounters) (t : Nat) (region : Nat → Nat) :
    c_main_store_provenance_data c t region
      NUMBER_OF_PRE_SYNAPTIC_EVENT_COUNT = c.pre_synaptic_events ∧
    c_main_store_provenance_data c t region
      SYNAPTIC_WEIGHT_SATURATION_COUNT = c.saturation_count ∧
    c_main_store_provenance_data c t region
      INPUT_BUFFER_OVERFLOW_COUNT = c.buffer_overflows ∧
    c_main_store_provenance_data c t region CURRENT_TIMER_TICK = t ∧
    (∀ i, i ≠ NUMBER_OF_PRE_SYNAPTIC_EVENT_COUNT →
      i ≠ SYNAPTIC_WEIGHT_SATURATION_COUNT →
      i ≠ INPUT_BUFFER_OVERFLOW_COUNT → i ≠ CURRENT_TIMER_TICK →
      c_main_store_provenance_data c t region i = region i) := by
  refine ⟨?_, ?_, ?_, ?_, ?_⟩
  · simp [c_main_store_provenance_data, Function.update_apply,
      NUMBER_OF_PRE_SYNAPTIC_EVENT_COUNT, SYNAPTIC_WEIGHT_SATURATION_COUNT,
      INPUT_BUFFER_OVERFLOW_COUNT, CURRENT_TIMER_TICK]
  · simp [c_main_store_provenance_data, Function.update_apply,
      NUMBER_OF_PRE_SYNAPTIC_EVENT_COUNT, SYNAPTIC_WEIGHT_SATURATION_COUNT,
      INPUT_BUFFER_OVERFLOW_COUNT, CURRENT_TIMER_TICK]
  · simp [c_main_store_provenance_data, Function.update_apply,
      NUMBER_OF_PRE_SYNAPTIC_EVENT_COUNT, SYNAPTIC_WEIGHT_SATURATION_COUNT,
      INPUT_BUFFER_OVERFLOW_COUNT, CURRENT_TIMER_TICK]
  · simp [c_main_store_provenance_data, Function.update_apply,
      NUMBER_OF_PRE_SYNAPTIC_EVENT_COUNT, SYNAPTIC_WEIGHT_SATURATION_COUNT,
      INPUT_BUFFER_OVERFLOW_COUNT, CURRENT_TIMER_TICK]
  · intro i h0 h1 h2 h3
    simp only [NUMBER_OF_PRE_SYNAPTIC_EVENT_COUNT,
      SYNAPTIC_WEIGHT_SATURATION_COUNT, INPUT_BUFFER_OVERFLOW_COUNT,
      CURRENT_TIMER_TICK] at h0 h1 h2 h3
    simp [c_main_store_provenance_data, Function.update_apply,
      NUMBER_OF_PRE_SYNAPTIC_EVENT_COUNT, SYNAPTIC_WEIGHT_SATURATION_COUNT,
      INPUT_BUFFER_OVERFLOW_COUNT, CURRENT_TIMER_TICK, h0, h1, h2, h3]

/-- C7 witness: a concrete region is untouched at word 7. -/
theorem C7_witness :
    c_main_store_provenance_data ⟨11, 22, 33⟩ 44 (fun j => j + 100) 7 =
      (fun j : Nat => j + 100) 7 :=
  (C7_provenance ⟨11, 22, 33⟩ 44 (fun j => j + 100)).2.2.2.2 7
    (by decide) (by decide) (by decide) (by decide)

/-- C8: resume_callback always resets recording first and then attempts
the parameter reload; when the reload fails it raises the fatal error
RTE_SWERR (the core halts rather than returning), it returns normally
iff the reload succeeded, RTE_SWERR is distinct from the RTE_API code,
and RTE_API is the code c_main raises on initialisation failure. -/
theorem C8_resume_halts (reload_ok : Bool) (env : InitEnv)
    (ticks infr flags : Nat) (hinit : (initialise env).1 = false) :
    resume_callback reload_ok =
      ([ResumeEvent.recordingReset, ResumeEvent.reloadParams],
        if reload_ok then none else some RtError.RTE_SWERR) ∧
    ((resume_callback reload_ok).2 = none ↔ reload_ok = true) ∧
    RtError.RTE_SWERR ≠ RtError.RTE_API ∧
    c_main env ticks infr flags = Except.error RtError.RTE_API := by
  refine ⟨rfl, ?_, by decide, ?_⟩
  · cases reload_ok <;> simp [resume_callback]
  · simp [c_main, hinit]

/-- C8 witness: a failed reload raises RTE_SWERR while a failed
initialisation makes c_main raise RTE_API. -/
theorem C8_witness :
    resume_callback false =
      ([ResumeEvent.recordingReset, ResumeEvent.reloadParams],
        if false then none else some RtError.RTE_SWERR) ∧
    ((resume_callback false).2 = none ↔ false = true) ∧
    RtError.RTE_SWERR ≠ RtError.RTE_API ∧
    c_main ⟨false, true, true, true, true, true, true, true⟩ 5 0 0 =
      Except.error RtError.RTE_API :=
  C8_resume_halts false ⟨false, true, true, true, true, true, true, true⟩
    5 0 0 (by decide)

/-- C9: every timer-callback invocation leaves simulation_ticks,
infinite_run and recording_flags unchanged, and on a non-boundary tick
the only global it modifies is time, which becomes the old time plus
one modulo 2 ^ 32. -/
theorem C9_frame (s : SimState) :
    (timer_callback s).1.simulation_ticks = s.simulation_ticks ∧
    (timer_callback s).1.infinite_run = s.infinite_run ∧
    (timer_callback s).1.recording_flags = s.recording_flags ∧
    (s.infinite_run = TRUE ∨ (s.time + 1) % U32 < s.simulation_ticks →
      (timer_callback s).1.time = (s.time + 1) % U32) := by
  obtain ⟨t, ticks, ir, rf⟩ := s
  by_cases hc : ir ≠ TRUE ∧ ticks ≤ (t + 1) % U32
  · have hcb := timer_callback_of_boundary ⟨t, ticks, ir, rf⟩ hc.1 hc.2
    rw [hcb]
    refine ⟨by dsimp only, by dsimp only, by dsimp only, ?_⟩
    intro h
    exfalso
    rcases h with h | h
    · exact hc.1 h
    · dsimp only at h
      have h2 := hc.2
      omega
  · have h : ir = TRUE ∨ (t + 1) % U32 < ticks := by
      rcases not_and_or.mp hc with h | h
      · exact Or.inl (not_not.mp h)
      · exact Or.inr (by omega)
    have hcb := timer_callback_of_run ⟨t, ticks, ir, rf⟩ h
    rw [hcb]
    exact ⟨by dsimp only, by dsimp only, by dsimp only, fun _ => by dsimp only⟩

/-- C9 witness: a non-boundary tick at time = 0 with 5 requested ticks. -/
theorem C9_witness :
    (timer_callback ⟨0, 5, 0, 0⟩).1.simulation_ticks = 5 ∧
    (timer_callback ⟨0, 5, 0, 0⟩).1.time = (0 + 1) % U32 :=
  ⟨(C9_frame ⟨0, 5, 0, 0⟩).1,
    (C9_frame ⟨0, 5, 0, 0⟩).2.2.2 (Or.inr (by decide))⟩

/-- C10: with ticks_requested = 0 and infinite_run = false, the first
timer-callback invocation already takes the boundary branch (time wraps
from UINT32_MAX to 0 and 0 is at least 0): it produces the boundary
trace (store parameters, pause, finalisations) and no model update, the
decrement wraps time back to UINT32_MAX, and any number of further
invocations keeps the state fixed with vertex_do_timestep_update never
called for the entire run. -/
theorem C10_zero_ticks (flags k : Nat) :
    ((initState 0 0 flags).time + 1) % U32 = 0 ∧
    (timer_callback (initState 0 0 flags)).2 = boundaryTrace flags ∧
    (timer_callback (initState 0 0 flags)).1 = initState 0 0 flags ∧
    (timer_callback (initState 0 0 flags)).1.time = U32 - 1 ∧
    (run_callbacks k (initState 0 0 flags)).1 = initState 0 0 flags ∧
    updateArgs (run_callbacks k (initState 0 0 flags)).2 = [] := by
  have hU := U32_pos
  have hm : ((initState 0 0 flags).time + 1) % U32 = 0 := by
    show (U32 - 1 + 1) % U32 = 0
    have h1 : U32 - 1 + 1 = U32 := by omega
    rw [h1, Nat.mod_self]
  have ht : (initState 0 0 flags).time < U32 := by
    show U32 - 1 < U32
    omega
  have hinf : (initState 0 0 flags).infinite_run ≠ TRUE := by
    show (0 : Nat) ≠ TRUE
    decide
  have hb : (initState 0 0 flags).simulation_ticks ≤
      ((initState 0 0 flags).time + 1) % U32 := by
    rw [hm]
    exact Nat.le_refl 0
  have hfix := timer_callback_fixed (initState 0 0 flags) ht hinf hb
  have hrun := run_callbacks_fixed (initState 0 0 flags) ht hinf hb k
  refine ⟨hm, ?_, ?_, ?_, hrun.1, hrun.2⟩
  · rw [hfix]
    dsimp only [initState]
  · rw [hfix]
  · rw [hfix]
    dsimp only [initState]
